import Mathlib

/-!
Verification of the errtypes error-classification library.

The library (src/unnamed/part_001, with src/errtypes.go an identical
subset) defines five error category marker interfaces (BadInput,
Unauthenticated, Forbidden, NotFound, Conflict), one concrete struct per
category carrying a message string, constructors, wrapping-aware
predicates, and an HTTP status-code mapping.  Predicates resolve the root
cause of an error chain via the external collaborator
github.com/pkg/errors `errors.Cause`, which repeatedly follows the
`Cause() error` link until reaching a value without one.

Embedding choices:
* Go error values form the inductive type `Err`; a nullable `error`
  variable is `Option Err`, with `none` for Go `nil`.
* The five private structs `badInputError` .. `conflictError` are the
  first five constructors of `Err`, each carrying its field `s`.
* `Err.plain` models any uncategorized error (e.g. `errors.New`), and
  `Err.wrapped` models a wrapping layer that adds context while keeping
  a retrievable reference to its cause (pkg/errors `Wrap`/`WithMessage`).
* A Go panic is modelled as `none` in an `Option` result.
-/

/-- The Go error values relevant to the library: the five categorized
structs of part_001, a plain uncategorized error, and a context layer
that wraps a cause. -/
inductive Err where
  | badInputError (s : String)
  | unauthenticatedError (s : String)
  | forbiddenError (s : String)
  | notFoundError (s : String)
  | conflictError (s : String)
  | plain (s : String)
  | wrapped (msg : String) (cause : Err)
deriving DecidableEq

/-- The external collaborator `errors.Cause` of github.com/pkg/errors:
repeatedly follow the cause link until the value has no further cause.
Only `Err.wrapped` implements the `causer` interface. -/
def Err.cause : Err → Err
  | .wrapped _ e => Err.cause e
  | e => e

/-- `errors.Cause` lifted to nullable errors: `Cause(nil)` is `nil`. -/
def Cause : Option Err → Option Err
  | none => none
  | some e => some (Err.cause e)

/-- Method `func (e badInputError) Error() string { return e.s }` and its
four siblings; a wrapped error renders as `msg: cause` per pkg/errors. -/
def Err.Error : Err → String
  | .badInputError s => s
  | .unauthenticatedError s => s
  | .forbiddenError s => s
  | .notFoundError s => s
  | .conflictError s => s
  | .plain s => s
  | .wrapped msg e => msg ++ ": " ++ Err.Error e

/-- Method `func (e badInputError) IsBadInput() bool { return true }`. -/
def badInputError.IsBadInput (_ : String) : Bool := true

/-- Method `func (e unauthenticatedError) IsUnauthenticated() bool`. -/
def unauthenticatedError.IsUnauthenticated (_ : String) : Bool := true

/-- Method `func (e forbiddenError) IsForbidden() bool`. -/
def forbiddenError.IsForbidden (_ : String) : Bool := true

/-- Method `func (e notFoundError) IsNotFound() bool`. -/
def notFoundError.IsNotFound (_ : String) : Bool := true

/-- Method `func (e conflictError) IsConflict() bool`. -/
def conflictError.IsConflict (_ : String) : Bool := true

/-- `func IsBadInput(err error) bool`: type-assert the root cause against
the BadInput interface (only `badInputError` implements it) and call the
accessor; the failed assertion branch returns false. -/
def IsBadInput (err : Option Err) : Bool :=
  match Cause err with
  | some (.badInputError s) => badInputError.IsBadInput s
  | _ => false

/-- `func IsUnauthenticated(err error) bool` of part_001. -/
def IsUnauthenticated (err : Option Err) : Bool :=
  match Cause err with
  | some (.unauthenticatedError s) => unauthenticatedError.IsUnauthenticated s
  | _ => false

/-- `func IsForbidden(err error) bool` of part_001. -/
def IsForbidden (err : Option Err) : Bool :=
  match Cause err with
  | some (.forbiddenError s) => forbiddenError.IsForbidden s
  | _ => false

/-- `func IsNotFound(err error) bool` of part_001. -/
def IsNotFound (err : Option Err) : Bool :=
  match Cause err with
  | some (.notFoundError s) => notFoundError.IsNotFound s
  | _ => false

/-- `func IsConflict(err error) bool` of part_001. -/
def IsConflict (err : Option Err) : Bool :=
  match Cause err with
  | some (.conflictError s) => conflictError.IsConflict s
  | _ => false

/-- `func NewBadInput(s string) error { return badInputError{s: s} }`. -/
def NewBadInput (s : String) : Err := Err.badInputError s

/-- `func NewUnauthenticated(s string) error` of part_001. -/
def NewUnauthenticated (s : String) : Err := Err.unauthenticatedError s

/-- `func NewForbidden(s string) error` of part_001. -/
def NewForbidden (s : String) : Err := Err.forbiddenError s

/-- `func NewNotFound(s string) error` of part_001. -/
def NewNotFound (s : String) : Err := Err.notFoundError s

/-- `func NewConflict(s string) error` of part_001. -/
def NewConflict (s : String) : Err := Err.conflictError s

/-- A variadic `...interface\x7b\x7d` argument passed to `fmt.Sprintf`:
the library only needs strings and integers. -/
inductive FmtArg where
  | str (s : String)
  | int (i : Int)
deriving DecidableEq

/-- Rendering of an argument under the `%s` verb, matching Go fmt:
a string prints itself, an int under `%s` prints a bad-verb marker. -/
def fmtVerbS : FmtArg → String
  | .str s => s
  | .int i => "%!s(int=" ++ toString i ++ ")"

/-- Rendering of an argument under the `%d` verb, matching Go fmt. -/
def fmtVerbD : FmtArg → String
  | .int i => toString i
  | .str s => "%!d(string=" ++ s ++ ")"

/-- Rendering of a leftover argument in Go fmt EXTRA reporting. -/
def fmtExtra : FmtArg → String
  | .str s => "string=" ++ s
  | .int i => "int=" ++ toString i

/-- Core loop of `fmt.Sprintf` over the characters of the format string,
restricted to the `%s`, `%d` and `%%` verbs the library relies on,
including the Go MISSING and EXTRA markers for arity mismatch. -/
def sprintfAux : List Char → List FmtArg → String
  | [], [] => ""
  | [], a :: args =>
      "%!(EXTRA " ++ String.intercalate ", " ((a :: args).map fmtExtra) ++ ")"
  | '%' :: 's' :: rest, a :: args => fmtVerbS a ++ sprintfAux rest args
  | '%' :: 'd' :: rest, a :: args => fmtVerbD a ++ sprintfAux rest args
  | '%' :: 's' :: rest, [] => "%!s(MISSING)" ++ sprintfAux rest []
  | '%' :: 'd' :: rest, [] => "%!d(MISSING)" ++ sprintfAux rest []
  | '%' :: '%' :: rest, args => "%" ++ sprintfAux rest args
  | c :: rest, args => String.singleton c ++ sprintfAux rest args

/-- `fmt.Sprintf` of the Go standard library, on the verb subset the
constructors use; the spec sanctions modelling exactly this minimum
viable subset of standard format substitution. -/
def sprintf (f : String) (args : List FmtArg) : String :=
  sprintfAux f.data args

/-- `func NewBadInputf(s string, i ...interface\x7b\x7d) error`. -/
def NewBadInputf (s : String) (i : List FmtArg) : Err :=
  Err.badInputError (sprintf s i)

/-- `func NewUnauthenticatedf(s string, args ...interface\x7b\x7d) error`. -/
def NewUnauthenticatedf (s : String) (args : List FmtArg) : Err :=
  Err.unauthenticatedError (sprintf s args)

/-- `func NewForbiddenf(s string, i ...interface\x7b\x7d) error`. -/
def NewForbiddenf (s : String) (i : List FmtArg) : Err :=
  Err.forbiddenError (sprintf s i)

/-- `func NewNotFoundf(s string, i ...interface\x7b\x7d) error`. -/
def NewNotFoundf (s : String) (i : List FmtArg) : Err :=
  Err.notFoundError (sprintf s i)

/-- `func NewConflictf(s string, i ...interface\x7b\x7d) error`. -/
def NewConflictf (s : String) (i : List FmtArg) : Err :=
  Err.conflictError (sprintf s i)

/-- `func HTTPStatusCode(err error) int` of part_001.  The Go function
panics on a nil argument; the panic is modelled as `none`, every normal
return as `some`. -/
def HTTPStatusCode : Option Err → Option Int
  | none => none
  | some e =>
    if IsBadInput (some e) then some 400
    else if IsUnauthenticated (some e) then some 401
    else if IsForbidden (some e) then some 403
    else if IsNotFound (some e) then some 404
    else if IsConflict (some e) then some 409
    else some 500

/-- The closed set of five categories of the data model. -/
inductive Category where
  | badInput
  | unauthenticated
  | forbidden
  | notFound
  | conflict
deriving DecidableEq

/-- Dispatch from a category to its constructor NewC. -/
def NewCat : Category → String → Err
  | .badInput, s => NewBadInput s
  | .unauthenticated, s => NewUnauthenticated s
  | .forbidden, s => NewForbidden s
  | .notFound, s => NewNotFound s
  | .conflict, s => NewConflict s

/-- Dispatch from a category to its predicate IsC. -/
def IsCat : Category → Option Err → Bool
  | .badInput, e => IsBadInput e
  | .unauthenticated, e => IsUnauthenticated e
  | .forbidden, e => IsForbidden e
  | .notFound, e => IsNotFound e
  | .conflict, e => IsConflict e

/-- Dispatch from a category to its formatting constructor NewCf. -/
def NewCatf : Category → String → List FmtArg → Err
  | .badInput, s, i => NewBadInputf s i
  | .unauthenticated, s, i => NewUnauthenticatedf s i
  | .forbidden, s, i => NewForbiddenf s i
  | .notFound, s, i => NewNotFoundf s i
  | .conflict, s, i => NewConflictf s i

/-- A chain of context layers: wrap `e` once per message in `msgs`, each
layer keeping a retrievable reference to its cause. -/
def wrapAll (msgs : List String) (e : Err) : Err :=
  msgs.foldr Err.wrapped e

/-- Root status of an error value by the constructor of its root:
the characterization `HTTPStatusCode` is proved against. -/
def rootStatus : Err → Int
  | .badInputError _ => 400
  | .unauthenticatedError _ => 401
  | .forbiddenError _ => 403
  | .notFoundError _ => 404
  | .conflictError _ => 409
  | _ => 500

/-! Helper lemmas shared by the claim theorems. -/

/-- Resolving the root cause ignores every wrapping layer. -/
theorem cause_wrapAll (msgs : List String) (e : Err) :
    Err.cause (wrapAll msgs e) = Err.cause e := by
  induction msgs with
  | nil => rfl
  | cons m ms ih => exact ih

/-- `HTTPStatusCode` on a non-nil error is determined by the constructor
of the root cause of the chain. -/
theorem httpStatusCode_eq_rootStatus (e : Err) :
    HTTPStatusCode (some e) = some (rootStatus (Err.cause e)) := by
  cases h : Err.cause e <;>
    simp [HTTPStatusCode, IsBadInput, IsUnauthenticated, IsForbidden, IsNotFound,
      IsConflict, Cause, h, rootStatus, badInputError.IsBadInput,
      unauthenticatedError.IsUnauthenticated, forbiddenError.IsForbidden,
      notFoundError.IsNotFound, conflictError.IsConflict]

/-! The claim theorems. -/

/-- Claim C1: for every category c, string s, and chain of zero or more
cause-preserving wrapping layers, the predicate of category d applied to
the wrapped `NewCat c s` answers exactly whether d is c: true for c
itself and false for every other category; moreover each predicate's
answer on any error is invariant under wrapping, because it resolves the
full causal chain to its root before testing. -/
theorem isCat_wrap_invariant (c d : Category) (s : String) (msgs : List String) (e : Err) :
    IsCat d (some (wrapAll msgs e)) = IsCat d (some e) ∧
    IsCat d (some (wrapAll msgs (NewCat c s))) = decide (d = c) := by
  constructor
  · have h := cause_wrapAll msgs e
    cases d <;>
      simp [IsCat, IsBadInput, IsUnauthenticated, IsForbidden, IsNotFound, IsConflict,
        Cause, h]
  · have h := cause_wrapAll msgs (NewCat c s)
    cases c <;> cases d <;>
      simp_all [IsCat, IsBadInput, IsUnauthenticated, IsForbidden, IsNotFound, IsConflict,
        Cause, NewCat, NewBadInput, NewUnauthenticated, NewForbidden, NewNotFound,
        NewConflict, Err.cause, badInputError.IsBadInput,
        unauthenticatedError.IsUnauthenticated, forbiddenError.IsForbidden,
        notFoundError.IsNotFound, conflictError.IsConflict]

/-- Claim C2: for every non-nil error, `HTTPStatusCode` tests IsBadInput,
IsUnauthenticated, IsForbidden, IsNotFound, IsConflict in that fixed
order and returns the first matching code among 400/401/403/404/409;
it returns 500 when no category matches the root, in particular on every
plain uncategorized error. -/
theorem httpStatusCode_priority (e : Err) :
    HTTPStatusCode (some e) =
      (if IsBadInput (some e) then some 400
       else if IsUnauthenticated (some e) then some 401
       else if IsForbidden (some e) then some 403
       else if IsNotFound (some e) then some 404
       else if IsConflict (some e) then some 409
       else some 500) ∧
    HTTPStatusCode (some e) = some (rootStatus (Err.cause e)) ∧
    ∀ s, HTTPStatusCode (some (Err.plain s)) = some 500 := by
  refine ⟨rfl, httpStatusCode_eq_rootStatus e, fun s => rfl⟩

/-- Claim C3: `HTTPStatusCode` on the nil error panics rather than
returning any integer; the panic is modelled by the absent result, so on
nil no status code is produced. -/
theorem httpStatusCode_nil_panics : HTTPStatusCode none = none := rfl

/-- Claim C4: each constructor maps to its documented status code:
NewBadInput to 400, NewUnauthenticated to 401, NewForbidden to 403,
NewNotFound to 404 and NewConflict to 409, for every message string. -/
theorem httpStatusCode_constructors (s : String) :
    HTTPStatusCode (some (NewBadInput s)) = some 400 ∧
    HTTPStatusCode (some (NewUnauthenticated s)) = some 401 ∧
    HTTPStatusCode (some (NewForbidden s)) = some 403 ∧
    HTTPStatusCode (some (NewNotFound s)) = some 404 ∧
    HTTPStatusCode (some (NewConflict s)) = some 409 :=
  ⟨rfl, rfl, rfl, rfl, rfl⟩

/-- Claim C5: every constructed error carries exactly its own category:
the predicate of category d on `NewCat c s` answers whether d equals c,
so the categorizing predicate is true and every other predicate false. -/
theorem isCat_newCat (c d : Category) (s : String) :
    IsCat d (some (NewCat c s)) = decide (d = c) := by
  cases c <;> cases d <;> rfl

/-- Claim C6: for every category and every string, including the empty
string, the constructed error renders via Error to exactly the stored
message, with no tag or alteration. -/
theorem newCat_error_message (c : Category) (s : String) :
    Err.Error (NewCat c s) = s := by
  cases c <;> rfl

/-- Claim C7: every formatting constructor stores the printf-style
substitution of its arguments into its format string, unaltered; in
particular formatting the string a and the integer 1 through the format
percent-s dash percent-d yields the message a-1. -/
theorem newCatf_formats (c : Category) (f : String) (args : List FmtArg) :
    Err.Error (NewCatf c f args) = sprintf f args ∧
    Err.Error (NewCatf c "%s-%d" [FmtArg.str "a", FmtArg.int 1]) = "a-1" := by
  cases c <;> exact ⟨rfl, rfl⟩

/-- Claim C8: every category predicate returns false on the nil error,
without unwrapping anything. -/
theorem isCat_nil_false (c : Category) : IsCat c none = false := by
  cases c <;> rfl

/-- Claim C9: whenever `HTTPStatusCode` returns normally on a non-nil
error, the returned integer lies in the finite set 400, 401, 403, 404,
409, 500. -/
theorem httpStatusCode_range (e : Err) (r : Int)
    (h : HTTPStatusCode (some e) = some r) :
    r = 400 ∨ r = 401 ∨ r = 403 ∨ r = 404 ∨ r = 409 ∨ r = 500 := by
  rw [httpStatusCode_eq_rootStatus e] at h
  injection h with h
  subst h
  cases hc : Err.cause e <;> simp [rootStatus]

/-- Witness for claim C9 at the concrete plain error with message x,
where the returned status is 500. -/
theorem httpStatusCode_range_witness :
    (500 : Int) = 400 ∨ (500 : Int) = 401 ∨ (500 : Int) = 403 ∨
      (500 : Int) = 404 ∨ (500 : Int) = 409 ∨ (500 : Int) = 500 :=
  httpStatusCode_range (Err.plain "x") 500 rfl

/-- Claim C10: classification and status mapping depend only on which
constructor was used, never on the message content: for all categories
and all pairs of strings the predicate answers and the status codes
coincide. -/
theorem classification_message_independent (c d : Category) (s t : String) :
    IsCat c (some (NewCat d s)) = IsCat c (some (NewCat d t)) ∧
    HTTPStatusCode (some (NewCat d s)) = HTTPStatusCode (some (NewCat d t)) := by
  cases c <;> cases d <;> exact ⟨rfl, rfl⟩
